import Mathlib

/-!
Shallow embedding of the rtnetlink client library (rust-netlink/rtnetlink)
for checking its natural-language specification.

Each definition translates one Rust item from the repository sources:
  * `src/route/builder.rs`  — `RouteMessageBuilder` and its family checks
  * `src/route/add.rs`      — `RouteAddRequest`
  * `src/route/get.rs`      — `RouteGetRequest`
  * `src/addr/builder.rs`   — `AddressMessageBuilder`
  * `src/addr/add.rs`       — `AddressAddRequest`
  * `src/addr/get.rs`       — `AddressFilterBuilder`
  * `src/neighbour/add.rs`  — `NeighbourAddRequest`
  * `src/link/add.rs`       — `LinkAddRequest`
  * `src/link/builder.rs`   — `LinkMessageBuilder`
  * `src/nexthop/add.rs`    — `NexthopAddRequest`
  * `src/ns.rs`             — `NetworkNamespace` parent/child processes
  * `src/multicast.rs`      — `MulticastGroup`
  * `src/connection.rs`     — `new_multicast_connection_with_socket`

Machine integers are modelled as `Nat` (`u32` values stay below `2^32`
by hypothesis where it matters; bitwise ops are `Nat` bitwise ops, which
agree with the Rust ones on in-range values).  Rust method names ending
in words this development cannot use verbatim are renamed (`setDest`
for `destination_prefix`, `setSrc` for `source_prefix`); everything else
keeps the source's name.
-/

namespace Rtnetlink

/-- Netlink header flag `NLM_F_REQUEST` (netlink_packet_core). -/
def NLM_F_REQUEST : Nat := 1
/-- Netlink header flag `NLM_F_ACK`. -/
def NLM_F_ACK : Nat := 4
/-- Netlink header flag `NLM_F_ROOT`. -/
def NLM_F_ROOT : Nat := 0x100
/-- Netlink header flag `NLM_F_MATCH`. -/
def NLM_F_MATCH : Nat := 0x200
/-- Netlink header flag `NLM_F_DUMP = NLM_F_ROOT | NLM_F_MATCH`. -/
def NLM_F_DUMP : Nat := NLM_F_ROOT ||| NLM_F_MATCH
/-- Netlink header flag `NLM_F_REPLACE`. -/
def NLM_F_REPLACE : Nat := 0x100
/-- Netlink header flag `NLM_F_EXCL`. -/
def NLM_F_EXCL : Nat := 0x200
/-- Netlink header flag `NLM_F_CREATE`. -/
def NLM_F_CREATE : Nat := 0x400
/-- Netlink header flag `NLM_F_APPEND`. -/
def NLM_F_APPEND : Nat := 0x800

/-- `std::net::Ipv4Addr`, as its `u32` big-endian value
(`u32::from(addr)` in the Rust sources). -/
structure Ipv4Addr where
  bits : Nat
  deriving DecidableEq, Repr

/-- `std::net::Ipv6Addr`, as its `u128` big-endian value. -/
structure Ipv6Addr where
  bits : Nat
  deriving DecidableEq, Repr

/-- `Ipv4Addr::is_multicast`: the address is in `224.0.0.0/4`,
i.e. its top four bits are `0b1110`. -/
def Ipv4Addr.is_multicast (a : Ipv4Addr) : Bool :=
  (a.bits >>> 28) % 16 == 14

/-- `Ipv6Addr::is_multicast`: the first octet is `0xff`. -/
def Ipv6Addr.is_multicast (a : Ipv6Addr) : Bool :=
  (a.bits >>> 120) % 256 == 255

/-- `std::net::IpAddr`. -/
inductive IpAddr where
  | v4 (a : Ipv4Addr)
  | v6 (a : Ipv6Addr)
  deriving DecidableEq, Repr

/-- `IpAddr::is_ipv4`. -/
def IpAddr.is_ipv4 : IpAddr → Bool
  | .v4 _ => true
  | .v6 _ => false

/-- `IpAddr::is_ipv6`. -/
def IpAddr.is_ipv6 : IpAddr → Bool
  | .v4 _ => false
  | .v6 _ => true

/-- `netlink_packet_route::AddressFamily` (the variants this library
touches). -/
inductive AddressFamily where
  | Unspec
  | Inet
  | Inet6
  | Bridge
  | Mpls
  deriving DecidableEq, Repr

/-- `netlink_packet_route::route::RouteAddress`. -/
inductive RouteAddress where
  | Inet (a : Ipv4Addr)
  | Inet6 (a : Ipv6Addr)
  | Mpls (label : Nat)
  deriving DecidableEq, Repr

/-- `impl From<IpAddr> for RouteAddress`. -/
def RouteAddress.ofIpAddr : IpAddr → RouteAddress
  | .v4 a => .Inet a
  | .v6 a => .Inet6 a

/-- `netlink_packet_route::route::RouteProtocol` (the variants used). -/
inductive RouteProtocol where
  | Unspec
  | Static
  deriving DecidableEq, Repr

/-- `netlink_packet_route::route::RouteScope` (the variants used). -/
inductive RouteScope where
  | Universe
  | Link
  | Host
  deriving DecidableEq, Repr

/-- `netlink_packet_route::route::RouteType` (the variants used). -/
inductive RouteType where
  | Unspec
  | Unicast
  deriving DecidableEq, Repr

/-- `netlink_packet_route::route::RouteAttribute` (the variants this
library's builders emit). -/
inductive RouteAttribute where
  | Destination (a : RouteAddress)
  | Source (a : RouteAddress)
  | PrefSource (a : RouteAddress)
  | Gateway (a : RouteAddress)
  | Via (a : RouteAddress)
  | Table (t : Nat)
  | Priority (p : Nat)
  | Iif (i : Nat)
  | Oif (i : Nat)
  deriving DecidableEq, Repr

/-- `RouteHeader::RT_TABLE_MAIN`. -/
def RT_TABLE_MAIN : Nat := 254

/-- `netlink_packet_route::route::RouteHeader` (the fields this library
touches; `table` is the kernel's one-byte field). -/
structure RouteHeader where
  address_family : AddressFamily := .Unspec
  destination_prefix_length : Nat := 0
  source_prefix_length : Nat := 0
  table : Nat := 0
  protocol : RouteProtocol := .Unspec
  scope : RouteScope := .Universe
  kind : RouteType := .Unspec
  deriving DecidableEq, Repr

/-- `netlink_packet_route::route::RouteMessage`. -/
structure RouteMessage where
  header : RouteHeader := {}
  attributes : List RouteAttribute := []
  deriving DecidableEq, Repr

/-- `InvalidRouteMessage` (src/route/builder.rs): local validation
errors of the generic `RouteMessageBuilder<IpAddr>`. -/
inductive InvalidRouteMessage where
  | AddressFamily (af : AddressFamily)
  | Gateway (a : IpAddr)
  | PrefSource (a : IpAddr)
  | SourcePfx (a : IpAddr) (len : Nat)
  | DestinationPfx (a : IpAddr) (len : Nat)
  deriving DecidableEq, Repr

namespace RouteMessageBuilder

/-- `RouteMessageBuilder::new_no_address_family` (src/route/builder.rs):
default message with table MAIN, protocol Static, scope Universe,
kind Unicast. -/
def new_no_address_family : RouteMessage :=
  { header := { table := RT_TABLE_MAIN
                protocol := .Static
                scope := .Universe
                kind := .Unicast } }

/-- `RouteMessageBuilder::<IpAddr>::new` (src/route/builder.rs): the
generic builder leaves the address family unspecified. -/
def new : RouteMessage := new_no_address_family

/-- `RouteMessageBuilder::table_id` (src/route/builder.rs): table IDs
above 255 go into a wide `Table` attribute, small ones into the
one-byte header field (`table as u8`). -/
def table_id (m : RouteMessage) (table : Nat) : RouteMessage :=
  if table > 255 then
    { m with attributes := m.attributes ++ [RouteAttribute.Table table] }
  else
    { m with header := { m.header with table := table % 256 } }

/-- `RouteMessageBuilder::<IpAddr>::set_address_family_from_ip_addr`
(src/route/builder.rs): fix the family from the first
family-determining argument; no-op once set. -/
def set_address_family_from_ip_addr (m : RouteMessage) (addr : IpAddr) :
    RouteMessage :=
  if m.header.address_family ≠ AddressFamily.Unspec then m
  else if addr.is_ipv4 then
    { m with header := { m.header with address_family := .Inet } }
  else
    { m with header := { m.header with address_family := .Inet6 } }

/-- `RouteMessageBuilder::<IpAddr>::destination_prefix`
(src/route/builder.rs), renamed `setDest`: validate the address
against the (possibly just fixed) family, then record prefix length
and `Destination` attribute. -/
def setDest (m : RouteMessage) (addr : IpAddr) (prefix_length : Nat) :
    Except InvalidRouteMessage RouteMessage :=
  let m := set_address_family_from_ip_addr m addr
  match m.header.address_family with
  | .Inet =>
    if addr.is_ipv6 || prefix_length > 32 then
      .error (.DestinationPfx addr prefix_length)
    else
      .ok { m with
              header := { m.header with
                            destination_prefix_length := prefix_length }
              attributes := m.attributes ++
                [RouteAttribute.Destination (RouteAddress.ofIpAddr addr)] }
  | .Inet6 =>
    if addr.is_ipv4 || prefix_length > 128 then
      .error (.DestinationPfx addr prefix_length)
    else
      .ok { m with
              header := { m.header with
                            destination_prefix_length := prefix_length }
              attributes := m.attributes ++
                [RouteAttribute.Destination (RouteAddress.ofIpAddr addr)] }
  | af => .error (.AddressFamily af)

/-- `RouteMessageBuilder::<IpAddr>::gateway` (src/route/builder.rs):
validate the gateway address against the (possibly just fixed)
family, then record a `Gateway` attribute. -/
def gateway (m : RouteMessage) (addr : IpAddr) :
    Except InvalidRouteMessage RouteMessage :=
  let m := set_address_family_from_ip_addr m addr
  match m.header.address_family with
  | .Inet =>
    if addr.is_ipv6 then .error (.Gateway addr)
    else .ok { m with attributes := m.attributes ++
                 [RouteAttribute.Gateway (RouteAddress.ofIpAddr addr)] }
  | .Inet6 =>
    if addr.is_ipv4 then .error (.Gateway addr)
    else .ok { m with attributes := m.attributes ++
                 [RouteAttribute.Gateway (RouteAddress.ofIpAddr addr)] }
  | af => .error (.AddressFamily af)

end RouteMessageBuilder

/-- `netlink_packet_route::address::AddressAttribute` (the variants
this library's builders and filters touch).  `Address` and `Local`
carry an `IpAddr`; `Broadcast` carries an `Ipv4Addr`; `Multicast` and
`Anycast` carry an `Ipv6Addr` — exactly as in the codec crate. -/
inductive AddressAttribute where
  | Address (a : IpAddr)
  | Local (a : IpAddr)
  | Broadcast (a : Ipv4Addr)
  | Multicast (a : Ipv6Addr)
  | Anycast (a : Ipv6Addr)
  | Label (s : String)
  deriving DecidableEq, Repr

/-- `netlink_packet_route::address::AddressHeader` (fields used). -/
structure AddressHeader where
  family : AddressFamily := .Unspec
  prefix_len : Nat := 0
  index : Nat := 0
  deriving DecidableEq, Repr

/-- `netlink_packet_route::address::AddressMessage`. -/
structure AddressMessage where
  header : AddressHeader := {}
  attributes : List AddressAttribute := []
  deriving DecidableEq, Repr

/-- The IPv4 broadcast derivation shared by
`AddressMessageBuilder::<Ipv4Addr>::address` (src/addr/builder.rs) and
`AddressAddRequest::new` (src/addr/add.rs):
`Ipv4Addr::from((0xffff_ffff_u32) >> prefix_len | u32::from(address))`. -/
def ipv4Broadcast (address : Ipv4Addr) (prefix_len : Nat) : Ipv4Addr :=
  ⟨(0xffffffff >>> prefix_len) ||| address.bits⟩

namespace AddressMessageBuilderV4

/-- `AddressMessageBuilder::<Ipv4Addr>::new` (src/addr/builder.rs). -/
def new : AddressMessage :=
  { header := { family := .Inet } }

/-- `AddressMessageBuilder::<Ipv4Addr>::address` (src/addr/builder.rs):
record the prefix length; for non-multicast addresses push `Address`,
`Local` and a `Broadcast` attribute (the exact address when
`prefix_len == 32`, the derived broadcast otherwise). -/
def address (m : AddressMessage) (addr : Ipv4Addr) (prefix_len : Nat) :
    AddressMessage :=
  let m := { m with header := { m.header with prefix_len := prefix_len } }
  if addr.is_multicast then m
  else
    { m with attributes := m.attributes ++
        [AddressAttribute.Address (.v4 addr),
         AddressAttribute.Local (.v4 addr),
         AddressAttribute.Broadcast
           (if prefix_len == 32 then addr else ipv4Broadcast addr prefix_len)] }

end AddressMessageBuilderV4

/-- `IpAddr::is_multicast` (dispatches on the version). -/
def IpAddr.is_multicast : IpAddr → Bool
  | .v4 a => a.is_multicast
  | .v6 a => a.is_multicast

namespace AddressAddRequest

/-- The message part of `AddressAddRequest::new` (src/addr/add.rs):
header family from the address version; multicast IPv6 addresses get a
`Multicast` attribute; otherwise `Address` (the peer when given, the
address itself when not) plus `Local`, and for IPv4 a `Broadcast`
attribute derived exactly as in the builder. -/
def new (index : Nat) (address : IpAddr) (prefix_len : Nat)
    (peer_address : Option IpAddr) : AddressMessage :=
  let header : AddressHeader :=
    { prefix_len := prefix_len
      index := index
      family := match address with
                | .v4 _ => .Inet
                | .v6 _ => .Inet6 }
  let attrs : List AddressAttribute :=
    if address.is_multicast then
      match address with
      | .v6 a => [AddressAttribute.Multicast a]
      | _ => []
    else
      (match peer_address with
       | some peer => [AddressAttribute.Address peer,
                       AddressAttribute.Local address]
       | none => [AddressAttribute.Address address,
                  AddressAttribute.Local address]) ++
      (match address with
       | .v4 a =>
         [AddressAttribute.Broadcast
            (if prefix_len == 32 then a else ipv4Broadcast a prefix_len)]
       | .v6 _ => [])
  { header := header, attributes := attrs }

/-- The netlink header flags computed in `AddressAddRequest::execute`
(src/addr/add.rs). -/
def executeFlags (replace : Bool) : Nat :=
  NLM_F_REQUEST ||| NLM_F_ACK |||
    (if replace then NLM_F_REPLACE else NLM_F_EXCL) ||| NLM_F_CREATE

end AddressAddRequest

namespace NeighbourAddRequest

/-- The netlink header flags computed in `NeighbourAddRequest::execute`
(src/neighbour/add.rs): `REPLACE` if `replace` is set, else `APPEND`
if `append` is set, else `EXCL`; always or-ed with
`REQUEST | ACK | CREATE`. -/
def executeFlags (replace append : Bool) : Nat :=
  let nl_msg_flags :=
    if replace then NLM_F_REPLACE
    else if append then NLM_F_APPEND
    else NLM_F_EXCL
  NLM_F_REQUEST ||| NLM_F_ACK ||| nl_msg_flags ||| NLM_F_CREATE

end NeighbourAddRequest

namespace RouteAddRequest

/-- `RouteAddRequest::table_id` (src/route/add.rs): same branching as
the route builder's `table_id`. -/
def table_id (m : RouteMessage) (table : Nat) : RouteMessage :=
  if table > 255 then
    { m with attributes := m.attributes ++ [RouteAttribute.Table table] }
  else
    { m with header := { m.header with table := table % 256 } }

/-- The netlink header flags computed in `RouteAddRequest::execute`
(src/route/add.rs). -/
def executeFlags (replace : Bool) : Nat :=
  NLM_F_REQUEST ||| NLM_F_ACK |||
    (if replace then NLM_F_REPLACE else NLM_F_EXCL) ||| NLM_F_CREATE

end RouteAddRequest

namespace NexthopAddRequest

/-- The netlink header flags computed in `NexthopAddRequest::execute`
(src/nexthop/add.rs). -/
def executeFlags (replace : Bool) : Nat :=
  NLM_F_REQUEST ||| NLM_F_ACK |||
    (if replace then NLM_F_REPLACE else NLM_F_EXCL) ||| NLM_F_CREATE

end NexthopAddRequest

namespace LinkAddRequest

/-- The `flags` field set by `LinkAddRequest::new` (src/link/add.rs). -/
def newFlags : Nat :=
  NLM_F_REQUEST ||| NLM_F_ACK ||| NLM_F_CREATE ||| NLM_F_EXCL

/-- `LinkAddRequest::replace` (src/link/add.rs): `flags -= NLM_F_EXCL;
flags |= NLM_F_REPLACE` (u16 arithmetic; the default flags contain
`NLM_F_EXCL`, so the subtraction does not underflow there). -/
def replace (flags : Nat) : Nat :=
  ((flags - NLM_F_EXCL) % 65536) ||| NLM_F_REPLACE

end LinkAddRequest

/-- `AddressFilterBuilder` (src/addr/get.rs): the three optional
client-side post-filter predicates. -/
structure AddressFilterBuilder where
  index : Option Nat := none
  address : Option IpAddr := none
  prefix_len : Option Nat := none
  deriving Repr

namespace AddressFilterBuilder

/-- One iteration of the attribute scan inside
`AddressFilterBuilder::build` (src/addr/get.rs): `Address`/`Local`
match the filter address directly; `Multicast`/`Anycast` match when
`IpAddr::V6(*x) == address`. -/
def attrMatches (address : IpAddr) : AddressAttribute → Bool
  | .Address x => x == address
  | .Local x => x == address
  | .Multicast x => IpAddr.v6 x == address
  | .Anycast x => IpAddr.v6 x == address
  | _ => false

/-- `AddressFilterBuilder::build` (src/addr/get.rs): the closure
applied by `AddressGetRequest::execute` to every dumped message.
Index and prefix-length filters reject on header mismatch; the address
filter accepts exactly when some attribute matches. -/
def build (f : AddressFilterBuilder) (msg : AddressMessage) : Bool :=
  match f.index with
  | some index =>
    if msg.header.index ≠ index then false else buildPrefixStep f msg
  | none => buildPrefixStep f msg
where
  buildPrefixStep (f : AddressFilterBuilder) (msg : AddressMessage) : Bool :=
    match f.prefix_len with
    | some prefix_len =>
      if msg.header.prefix_len ≠ prefix_len then false
      else buildAddressStep f msg
    | none => buildAddressStep f msg
  buildAddressStep (f : AddressFilterBuilder) (msg : AddressMessage) : Bool :=
    match f.address with
    | some address => msg.attributes.any (attrMatches address)
    | none => true

end AddressFilterBuilder

namespace RouteGetRequest

/-- The state of `RouteGetRequest` (src/route/get.rs) that its `to`
and `execute` methods read and write: the header's destination prefix
length, the pushed nlas (only `Destination` matters here) and the
`dump` mode flag. -/
structure State where
  destination_prefix_length : Nat := 0
  nlas : List RouteAttribute := []
  dump : Bool := true
  deriving Repr

/-- `RouteGetRequest::new` (src/route/get.rs): zeroed prefix lengths
and `dump = true`. -/
def new : State := {}

/-- `RouteGetRequest::<Ipv4Addr>::to` (src/route/get.rs): push the
destination, set the destination prefix length to 32 and leave dump
mode. -/
def toV4 (s : State) (ip : Ipv4Addr) : State :=
  { s with nlas := s.nlas ++ [RouteAttribute.Destination (.Inet ip)]
           destination_prefix_length := 32
           dump := false }

/-- `RouteGetRequest::<Ipv6Addr>::to` (src/route/get.rs): push the
destination, set the destination prefix length to 32 (the same literal
as the IPv4 variant) and leave dump mode. -/
def toV6 (s : State) (ip : Ipv6Addr) : State :=
  { s with nlas := s.nlas ++ [RouteAttribute.Destination (.Inet6 ip)]
           destination_prefix_length := 32
           dump := false }

/-- The netlink header flags computed in `RouteGetRequest::execute`
(both the IPv4 and IPv6 impls in src/route/get.rs). -/
def executeFlags (dump : Bool) : Nat :=
  if dump then NLM_F_REQUEST ||| NLM_F_DUMP else NLM_F_REQUEST

end RouteGetRequest

/-- A `nix::errno::Errno` value, as its number. -/
abbrev Errno := Nat

/-- `crate::Error` (src/errors.rs is not part of the given sources;
the variants are modelled from the spec's §7 taxonomy and from the
constructor uses in src/ns.rs — only `NamespaceError` matters here). -/
inductive Error where
  | NetlinkError (code : Int)
  | RequestFailed
  | NamespaceError (msg : String)
  | InvalidNla (msg : String)
  deriving DecidableEq, Repr

/-- `nix::sys::wait::WaitStatus` as matched by
`NetworkNamespace::parent_process` (src/ns.rs): exit, signal, and the
remaining variants the catch-all arm covers. -/
inductive WaitStatus where
  | Exited (pid : Int) (code : Int)
  | Signaled (pid : Int) (signal : Nat) (core_dump : Bool)
  | Stopped (pid : Int) (signal : Nat)
  | PtraceEvent (pid : Int) (signal : Nat) (event : Int)
  | PtraceSyscall (pid : Int)
  | Continued (pid : Int)
  | StillAlive
  deriving DecidableEq, Repr

namespace NetworkNamespace

/-- `NetworkNamespace::parent_process` (src/ns.rs): `Ok(())` exactly
when `waitpid` reports a zero exit status; every other wait status and
a `waitpid` error become a `NamespaceError`. -/
def parent_process (wait_result : Except Errno WaitStatus) :
    Except Error Unit :=
  match wait_result with
  | .ok (.Exited _ res) =>
    if res == 0 then .ok ()
    else .error (.NamespaceError s!"Error child result: {res}")
  | .ok (.Signaled _ signal has_dump) =>
    .error (.NamespaceError
      s!"Error child process was killed by signal: {signal} with core dump {has_dump}")
  | .ok _ =>
    .error (.NamespaceError "Unknown child process status")
  | .error e =>
    .error (.NamespaceError s!"wait error: {e}")

/-- The outcome of each OS call the child performs, in program order
(src/ns.rs `child_process_create_ns` and `unshare_processing`); an
oracle standing for the kernel. -/
structure ChildSyscalls where
  stat_netns_dir : Except Errno Unit
  mkdir_netns_dir : Except Errno Unit
  mount_rec_shared : Except Errno Unit
  mount_bind_rec : Except Errno Unit
  mount_rec_shared_again : Except Errno Unit
  open_ns_file : Except Errno Nat
  close_ns_fd : Except Errno Unit
  unshare_newnet : Except Errno Unit
  open_self_ns : Except Errno Nat
  mount_bind_self : Except Errno Unit
  setns_newnet : Except Errno Unit
  deriving Repr

/-- `NetworkNamespace::child_process_create_ns` (src/ns.rs): mkdir the
netns directory when stat fails, make it a shared mount (recursive
shared, falling back to bind+rec, then shared again), create the
namespace file exclusively and close it.  Every syscall failure is
converted to a `NamespaceError`. -/
def child_process_create_ns (sys : ChildSyscalls) (ns_name : String) :
    Except Error String :=
  let netns_path := "/run/netns/" ++ ns_name
  let after_mkdir : Except Error Unit :=
    match sys.stat_netns_dir with
    | .ok _ => .ok ()
    | .error _ =>
      match sys.mkdir_netns_dir with
      | .ok _ => .ok ()
      | .error e => .error (.NamespaceError s!"mkdir error: {e}")
  match after_mkdir with
  | .error err => .error err
  | .ok _ =>
    let after_first_mount : Except Error Unit :=
      match sys.mount_rec_shared with
      | .ok _ => .ok ()
      | .error _ =>
        match sys.mount_bind_rec with
        | .ok _ => .ok ()
        | .error e => .error (.NamespaceError s!"mount error: {e}")
    match after_first_mount with
    | .error err => .error err
    | .ok _ =>
      match sys.mount_rec_shared_again with
      | .error e => .error (.NamespaceError s!"mount error: {e}")
      | .ok _ =>
        match sys.open_ns_file with
        | .error e => .error (.NamespaceError s!"open error: {e}")
        | .ok _fd =>
          match sys.close_ns_fd with
          | .error e => .error (.NamespaceError s!"close error: {e}")
          | .ok _ => .ok netns_path

/-- `NetworkNamespace::unshare_processing` (src/ns.rs): unshare into a
new network namespace, open the thread's namespace file, bind-mount it
onto the namespace file and `setns` into it.  Every syscall failure is
converted to a `NamespaceError`. -/
def unshare_processing (sys : ChildSyscalls) : Except Error Unit :=
  match sys.unshare_newnet with
  | .error e => .error (.NamespaceError s!"unshare error: {e}")
  | .ok _ =>
    match sys.open_self_ns with
    | .error e => .error (.NamespaceError s!"open error: {e}")
    | .ok _fd =>
      match sys.mount_bind_self with
      | .error e => .error (.NamespaceError s!"mount error: {e}")
      | .ok _ =>
        match sys.setns_newnet with
        | .error e => .error (.NamespaceError s!"setns error: {e}")
        | .ok _ => .ok ()

/-- The body the child runs under `catch_unwind` in
`NetworkNamespace::child_process` (src/ns.rs). -/
def child_body (sys : ChildSyscalls) (ns_name : String) :
    Except Error Unit :=
  match child_process_create_ns sys ns_name with
  | .error err => .error err
  | .ok _netns_path => unshare_processing sys

/-- Result of `std::panic::catch_unwind` around the child body. -/
inductive ChildOutcome where
  | panicked
  | completed (r : Except Error Unit)
  deriving Repr

/-- How the child leaves: `exit(code)` or `abort`. -/
inductive ChildExit where
  | exited (code : Nat)
  | aborted
  deriving DecidableEq, Repr

/-- The `match res` at the end of `NetworkNamespace::child_process`
(src/ns.rs): a panic aborts, a failure exits 1, success exits 0. -/
def child_process (res : ChildOutcome) : ChildExit :=
  match res with
  | .panicked => .aborted
  | .completed (.error _fail) => .exited 1
  | .completed (.ok _) => .exited 0

end NetworkNamespace

/-- `MulticastGroup` (src/multicast.rs): the `RTNLGRP_*` kernel
multicast groups. -/
inductive MulticastGroup where
  | Link
  | Notify
  | Neigh
  | Tc
  | Ipv4Ifaddr
  | Ipv4Mroute
  | Ipv4Route
  | Ipv4Rule
  | Ipv6Ifaddr
  | Ipv6Mroute
  | Ipv6Route
  | Ipv6Ifinfo
  | DecnetIfaddr
  | DecnetRoute
  | DecnetRule
  | Ipv6Pfx
  | Ipv6Rule
  | NdUseropt
  | PhonetIfaddr
  | PhonetRoute
  | Dcb
  | Ipv4Netconf
  | Ipv6Netconf
  | Mdb
  | MplsRoute
  | Nsid
  | MplsNetconf
  | Ipv4MrouteR
  | Ipv6MrouteR
  | Nexthop
  | Brvlan
  | MctpIfaddr
  | Tunnel
  | Stats
  | Ipv4Mcaddr
  | Ipv6Mcaddr
  | Ipv6Acaddr
  deriving DecidableEq, Repr

namespace MulticastGroup

/-- The `#[repr(u32)]` discriminants of `MulticastGroup`
(src/multicast.rs), i.e. `self as u32`: the `RTNLGRP_*` constants.
(`Ipv6Pfx` is the source's `Ipv6Prefix` = `RTNLGRP_IPV6_PREFIX`.) -/
def toU32 : MulticastGroup → Nat
  | .Link => 1
  | .Notify => 2
  | .Neigh => 3
  | .Tc => 4
  | .Ipv4Ifaddr => 5
  | .Ipv4Mroute => 6
  | .Ipv4Route => 7
  | .Ipv4Rule => 8
  | .Ipv6Ifaddr => 9
  | .Ipv6Mroute => 10
  | .Ipv6Route => 11
  | .Ipv6Ifinfo => 12
  | .DecnetIfaddr => 13
  | .DecnetRoute => 15
  | .DecnetRule => 16
  | .Ipv6Pfx => 18
  | .Ipv6Rule => 19
  | .NdUseropt => 20
  | .PhonetIfaddr => 21
  | .PhonetRoute => 22
  | .Dcb => 23
  | .Ipv4Netconf => 24
  | .Ipv6Netconf => 25
  | .Mdb => 26
  | .MplsRoute => 27
  | .Nsid => 28
  | .MplsNetconf => 29
  | .Ipv4MrouteR => 30
  | .Ipv6MrouteR => 31
  | .Nexthop => 32
  | .Brvlan => 33
  | .MctpIfaddr => 34
  | .Tunnel => 35
  | .Stats => 36
  | .Ipv4Mcaddr => 37
  | .Ipv6Mcaddr => 38
  | .Ipv6Acaddr => 39

/-- `MulticastGroup::need_via_add_membership` (src/multicast.rs):
`self as u32 > 31`. -/
def need_via_add_membership (g : MulticastGroup) : Bool :=
  g.toU32 > 31

end MulticastGroup

/-- The bind-time group bitmask accumulated by
`new_multicast_connection_with_socket` (src/connection.rs):
`all_groups |= 1 << (*group as u32 - 1)` over the groups that do not
need `add_membership`. -/
def bindGroupMask (groups : List MulticastGroup) : Nat :=
  (groups.filter (fun g => !g.need_via_add_membership)).foldl
    (fun all_groups g => all_groups ||| (1 <<< (g.toU32 - 1))) 0

/-- The groups `new_multicast_connection_with_socket`
(src/connection.rs) joins via `add_membership` after binding. -/
def addMembershipGroups (groups : List MulticastGroup) :
    List MulticastGroup :=
  groups.filter (fun g => g.need_via_add_membership)

/-- `netlink_packet_route::link::InfoKind` (payloads of the link-info
attribute; only its identity matters to this library's builder). -/
inductive InfoKind where
  | Bond
  | Bridge
  | Veth
  | Vlan
  | Vxlan
  | Dummy
  | Other (name : String)
  deriving DecidableEq, Repr

/-- `netlink_packet_route::link::InfoData` (kind-specific payload,
opaque to this library's builder). -/
structure InfoData where
  raw : Nat
  deriving DecidableEq, Repr

/-- `netlink_packet_route::link::InfoPortKind` (opaque here). -/
structure InfoPortKind where
  raw : Nat
  deriving DecidableEq, Repr

/-- `netlink_packet_route::link::InfoPortData` (opaque here). -/
structure InfoPortData where
  raw : Nat
  deriving DecidableEq, Repr

/-- `netlink_packet_route::link::LinkInfo`: one entry of the nested
link-info attribute list. -/
inductive LinkInfo where
  | Kind (k : InfoKind)
  | Data (d : InfoData)
  | PortKind (k : InfoPortKind)
  | PortData (d : InfoPortData)
  deriving DecidableEq, Repr

/-- `netlink_packet_route::link::LinkAttribute` (the variants the
builder emits). -/
inductive LinkAttribute where
  | IfName (name : String)
  | Mtu (mtu : Nat)
  | Address (mac : List Nat)
  | NetNsPid (pid : Nat)
  | NetNsFd (fd : Int)
  | Link (index : Nat)
  | Controller (index : Nat)
  | LinkInfoNla (infos : List LinkInfo)
  deriving DecidableEq, Repr

/-- `netlink_packet_route::link::LinkHeader` (fields used). -/
structure LinkHeader where
  interface_family : AddressFamily := .Unspec
  index : Nat := 0
  flags : Nat := 0
  change_mask : Nat := 0
  deriving DecidableEq, Repr

/-- `netlink_packet_route::link::LinkMessage`. -/
structure LinkMessage where
  header : LinkHeader := {}
  attributes : List LinkAttribute := []
  deriving DecidableEq, Repr

/-- `LinkMessageBuilder` (src/link/builder.rs); the field name keeps
the source's spelling `extra_attriutes`. -/
structure LinkMessageBuilder where
  header : LinkHeader := {}
  info_kind : Option InfoKind := none
  info_data : Option InfoData := none
  port_kind : Option InfoPortKind := none
  port_data : Option InfoPortData := none
  extra_attriutes : List LinkAttribute := []
  deriving Repr

namespace LinkMessageBuilder

/-- `LinkMessageBuilder::new_with_info_kind` (src/link/builder.rs). -/
def new_with_info_kind (info_kind : InfoKind) : LinkMessageBuilder :=
  { info_kind := some info_kind }

/-- `LinkMessageBuilder::append_extra_attribute`
(src/link/builder.rs). -/
def append_extra_attribute (b : LinkMessageBuilder)
    (link_attr : LinkAttribute) : LinkMessageBuilder :=
  { b with extra_attriutes := b.extra_attriutes ++ [link_attr] }

/-- `LinkMessageBuilder::set_info_data` (src/link/builder.rs). -/
def set_info_data (b : LinkMessageBuilder) (info_data : InfoData) :
    LinkMessageBuilder :=
  { b with info_data := some info_data }

/-- `LinkMessageBuilder::set_port_kind` (src/link/builder.rs). -/
def set_port_kind (b : LinkMessageBuilder) (port_kind : InfoPortKind) :
    LinkMessageBuilder :=
  { b with port_kind := some port_kind }

/-- `LinkMessageBuilder::set_port_data` (src/link/builder.rs). -/
def set_port_data (b : LinkMessageBuilder) (port_data : InfoPortData) :
    LinkMessageBuilder :=
  { b with port_data := some port_data }

/-- `LinkMessageBuilder::name` (src/link/builder.rs). -/
def name (b : LinkMessageBuilder) (n : String) : LinkMessageBuilder :=
  b.append_extra_attribute (.IfName n)

/-- `LinkMessageBuilder::mtu` (src/link/builder.rs). -/
def mtu (b : LinkMessageBuilder) (m : Nat) : LinkMessageBuilder :=
  b.append_extra_attribute (.Mtu m)

/-- `LinkMessageBuilder::build` (src/link/builder.rs): start from a
default message, move the extra attributes in (a no-op move when the
list is empty), collect the link-info entries in Kind, Data, PortKind,
PortData order, and push a single `LinkInfo` attribute when any entry
is present. -/
def build (b : LinkMessageBuilder) : LinkMessage :=
  let message : LinkMessage := { header := b.header }
  let message :=
    if !b.extra_attriutes.isEmpty then
      { message with attributes := b.extra_attriutes }
    else message
  let link_infos : List LinkInfo := []
  let link_infos := match b.info_kind with
    | some info_kind => link_infos ++ [LinkInfo.Kind info_kind]
    | none => link_infos
  let link_infos := match b.info_data with
    | some info_data => link_infos ++ [LinkInfo.Data info_data]
    | none => link_infos
  let link_infos := match b.port_kind with
    | some port_kind => link_infos ++ [LinkInfo.PortKind port_kind]
    | none => link_infos
  let link_infos := match b.port_data with
    | some port_data => link_infos ++ [LinkInfo.PortData port_data]
    | none => link_infos
  if !link_infos.isEmpty then
    { message with attributes :=
        message.attributes ++ [LinkAttribute.LinkInfoNla link_infos] }
  else message

end LinkMessageBuilder

end Rtnetlink

open Rtnetlink

/-- C3: the flags `NeighbourAddRequest::execute` sends always contain
`NLM_F_REQUEST | NLM_F_ACK | NLM_F_CREATE`, and exactly one of
`NLM_F_REPLACE`, `NLM_F_APPEND`, `NLM_F_EXCL`: `REPLACE` whenever
`replace()` was called (it wins over `append()`), `APPEND` when only
`append()` was called, `EXCL` when neither was. -/
theorem neighbour_add_flags_exactly_one_mode (replace append : Bool) :
    (NeighbourAddRequest.executeFlags replace append &&& NLM_F_REPLACE ≠ 0
        ↔ replace = true)
    ∧ (NeighbourAddRequest.executeFlags replace append &&& NLM_F_APPEND ≠ 0
        ↔ (replace = false ∧ append = true))
    ∧ (NeighbourAddRequest.executeFlags replace append &&& NLM_F_EXCL ≠ 0
        ↔ (replace = false ∧ append = false))
    ∧ NeighbourAddRequest.executeFlags replace append
          &&& (NLM_F_REQUEST ||| NLM_F_ACK ||| NLM_F_CREATE)
        = NLM_F_REQUEST ||| NLM_F_ACK ||| NLM_F_CREATE := by
  cases replace <;> cases append <;> decide

/-- C4: `table_id` on the route builder and on `RouteAddRequest`: a
table ID above 255 is appended as a wide `Table` attribute with the
header untouched; a table ID of at most 255 goes into the one-byte
header field and adds no attribute. -/
theorem route_table_id_wide_attribute_vs_header (m : RouteMessage)
    (t : Nat) :
    (255 < t →
      (RouteMessageBuilder.table_id m t).attributes
          = m.attributes ++ [RouteAttribute.Table t]
      ∧ (RouteMessageBuilder.table_id m t).header = m.header
      ∧ (RouteAddRequest.table_id m t).attributes
          = m.attributes ++ [RouteAttribute.Table t]
      ∧ (RouteAddRequest.table_id m t).header = m.header)
    ∧ (t ≤ 255 →
      (RouteMessageBuilder.table_id m t).header
          = { m.header with table := t }
      ∧ (RouteMessageBuilder.table_id m t).attributes = m.attributes
      ∧ (RouteAddRequest.table_id m t).header
          = { m.header with table := t }
      ∧ (RouteAddRequest.table_id m t).attributes = m.attributes) := by
  constructor
  · intro h
    simp [RouteMessageBuilder.table_id, RouteAddRequest.table_id, h]
  · intro h
    have hlt : t < 256 := Nat.lt_succ_of_le h
    have hnot : ¬ t > 255 := by omega
    simp [RouteMessageBuilder.table_id, RouteAddRequest.table_id, hnot,
      Nat.mod_eq_of_lt hlt]

/-- C4 witness: at table IDs 300 and 254 the two branches behave as
the theorem states. -/
theorem route_table_id_wide_attribute_vs_header_witness :
    (RouteMessageBuilder.table_id RouteMessageBuilder.new 300).attributes
        = RouteMessageBuilder.new.attributes ++ [RouteAttribute.Table 300]
    ∧ (RouteMessageBuilder.table_id RouteMessageBuilder.new 254).header
        = { RouteMessageBuilder.new.header with table := 254 } :=
  ⟨((route_table_id_wide_attribute_vs_header RouteMessageBuilder.new
      300).1 (by decide)).1,
   ((route_table_id_wide_attribute_vs_header RouteMessageBuilder.new
      254).2 (by decide)).1⟩

/-- C5: every Add request (link, route, address, nexthop) executes
with header flags `REQUEST|ACK|CREATE|EXCL` by default and
`REQUEST|ACK|CREATE|REPLACE` (EXCL removed) once `replace()` has been
called. -/
theorem add_request_flags_default_excl_replace_swaps (replace : Bool) :
    RouteAddRequest.executeFlags replace
        = (if replace
           then NLM_F_REQUEST ||| NLM_F_ACK ||| NLM_F_CREATE ||| NLM_F_REPLACE
           else NLM_F_REQUEST ||| NLM_F_ACK ||| NLM_F_CREATE ||| NLM_F_EXCL)
    ∧ AddressAddRequest.executeFlags replace
        = RouteAddRequest.executeFlags replace
    ∧ NexthopAddRequest.executeFlags replace
        = RouteAddRequest.executeFlags replace
    ∧ LinkAddRequest.newFlags
        = NLM_F_REQUEST ||| NLM_F_ACK ||| NLM_F_CREATE ||| NLM_F_EXCL
    ∧ LinkAddRequest.replace LinkAddRequest.newFlags
        = NLM_F_REQUEST ||| NLM_F_ACK ||| NLM_F_CREATE ||| NLM_F_REPLACE := by
  cases replace <;> decide

/-- C10: `RouteGetRequest::<Ipv6Addr>::to` sets the header's
destination prefix length to the literal 32 — the same constant the
IPv4 variant uses, not 128 — and switches the request out of dump
mode, so `execute` sends `NLM_F_REQUEST` without `NLM_F_DUMP`. -/
theorem route_get_v6_to_prefix_32_and_non_dump
    (s : RouteGetRequest.State) (ip : Ipv6Addr) (ip4 : Ipv4Addr) :
    (RouteGetRequest.toV6 s ip).destination_prefix_length = 32
    ∧ (RouteGetRequest.toV6 s ip).dump = false
    ∧ RouteGetRequest.executeFlags (RouteGetRequest.toV6 s ip).dump
        = NLM_F_REQUEST
    ∧ RouteGetRequest.executeFlags (RouteGetRequest.toV6 s ip).dump
          &&& NLM_F_DUMP = 0
    ∧ (RouteGetRequest.toV4 s ip4).destination_prefix_length = 32 := by
  refine ⟨rfl, rfl, rfl, ?_, rfl⟩
  rw [show (RouteGetRequest.toV6 s ip).dump = false from rfl]
  decide

/-- C2: for a non-multicast IPv4 address the address builder and
`AddressAddRequest::new` (without a distinct peer) emit `Address` and
`Local` attributes equal to the address and a `Broadcast` attribute
equal to the address itself when the prefix length is 32 and to
`a | (0xFFFFFFFF >> p)` otherwise. -/
theorem addr_v4_broadcast_derivation (a : Ipv4Addr) (p index : Nat)
    (hm : a.is_multicast = false) (hp : p ≤ 32) :
    (AddressMessageBuilderV4.address AddressMessageBuilderV4.new a p).attributes
        = [AddressAttribute.Address (.v4 a), AddressAttribute.Local (.v4 a),
           AddressAttribute.Broadcast
             (if p = 32 then a else ⟨a.bits ||| (0xffffffff >>> p)⟩)]
    ∧ (AddressMessageBuilderV4.address AddressMessageBuilderV4.new
          a p).header.prefix_len = p
    ∧ (AddressAddRequest.new index (.v4 a) p none).attributes
        = [AddressAttribute.Address (.v4 a), AddressAttribute.Local (.v4 a),
           AddressAttribute.Broadcast
             (if p = 32 then a else ⟨a.bits ||| (0xffffffff >>> p)⟩)]
    ∧ (AddressAddRequest.new index (.v4 a) p none).header.prefix_len = p := by
  by_cases h32 : p = 32
  · subst h32
    simp [AddressMessageBuilderV4.address, AddressMessageBuilderV4.new,
      AddressAddRequest.new, IpAddr.is_multicast, hm]
  · simp [AddressMessageBuilderV4.address, AddressMessageBuilderV4.new,
      AddressAddRequest.new, IpAddr.is_multicast, hm, h32,
      ipv4Broadcast, Nat.or_comm]

/-- C2 witness: `192.168.1.10/24` yields broadcast `192.168.1.255`
(values as `u32`s), and the `/32` host case yields the address
itself. -/
theorem addr_v4_broadcast_derivation_witness :
    Ipv4Addr.is_multicast ⟨3232235786⟩ = false
    ∧ (AddressMessageBuilderV4.address AddressMessageBuilderV4.new
          ⟨3232235786⟩ 24).attributes
        = [AddressAttribute.Address (.v4 ⟨3232235786⟩),
           AddressAttribute.Local (.v4 ⟨3232235786⟩),
           AddressAttribute.Broadcast ⟨3232236031⟩]
    ∧ (AddressAddRequest.new 1 (.v4 ⟨3232235786⟩) 32 none).attributes
        = [AddressAttribute.Address (.v4 ⟨3232235786⟩),
           AddressAttribute.Local (.v4 ⟨3232235786⟩),
           AddressAttribute.Broadcast ⟨3232235786⟩] :=
  ⟨by decide,
   ((addr_v4_broadcast_derivation ⟨3232235786⟩ 24 1 (by decide)
      (by decide)).1).trans (by decide),
   ((addr_v4_broadcast_derivation ⟨3232235786⟩ 32 1 (by decide)
      (by decide)).2.2.1).trans (by decide)⟩

/-- C1 (amended): on the generic `RouteMessageBuilder<IpAddr>`, a
`gateway` call of one IP family followed by a destination-prefix call
of the other family fails locally with
`InvalidRouteMessage::DestinationPrefix(addr, prefix)` — an `Err`, not
a built message (the spec's claim that the error is the
`AddressFamily` variant is off by one constructor). -/
theorem route_builder_family_mismatch_dest_error (g d : IpAddr)
    (p : Nat) (h : g.is_ipv4 ≠ d.is_ipv4) :
    (RouteMessageBuilder.gateway RouteMessageBuilder.new g).bind
        (fun m => RouteMessageBuilder.setDest m d p)
      = .error (.DestinationPfx d p) := by
  cases g <;> cases d <;> simp_all [IpAddr.is_ipv4] <;> rfl

/-- C1 witness: gateway `10.0.0.1` (IPv4) then destination `::1/64`
(IPv6) gives the `DestinationPrefix` error. -/
theorem route_builder_family_mismatch_dest_error_witness :
    (RouteMessageBuilder.gateway RouteMessageBuilder.new
        (.v4 ⟨167772161⟩)).bind
      (fun m => RouteMessageBuilder.setDest m (.v6 ⟨1⟩) 64)
      = .error (.DestinationPfx (.v6 ⟨1⟩) 64) :=
  route_builder_family_mismatch_dest_error (.v4 ⟨167772161⟩) (.v6 ⟨1⟩) 64
    (by decide)

/-- Whether the generic route builder's result is the
`InvalidRouteMessage::AddressFamily` error variant. -/
def isAddressFamilyError :
    Except InvalidRouteMessage RouteMessage → Bool
  | .error (.AddressFamily _) => true
  | _ => false

/-- Whether the generic route builder's result is a built message. -/
def isBuiltMessage : Except InvalidRouteMessage RouteMessage → Bool
  | .ok _ => true
  | _ => false

/-- C1 counterexample: gateway `10.0.0.1` (IPv4) then destination
`::1/64` (IPv6) does return `Err`, but its variant is
`DestinationPrefix`, not the claimed `AddressFamily`. -/
theorem route_builder_family_mismatch_not_af_error :
    isAddressFamilyError
        ((RouteMessageBuilder.gateway RouteMessageBuilder.new
            (.v4 ⟨167772161⟩)).bind
          (fun m => RouteMessageBuilder.setDest m (.v6 ⟨1⟩) 64)) = false
    ∧ isBuiltMessage
        ((RouteMessageBuilder.gateway RouteMessageBuilder.new
            (.v4 ⟨167772161⟩)).bind
          (fun m => RouteMessageBuilder.setDest m (.v6 ⟨1⟩) 64)) = false
    ∧ (RouteMessageBuilder.gateway RouteMessageBuilder.new
          (.v4 ⟨167772161⟩)).bind
        (fun m => RouteMessageBuilder.setDest m (.v6 ⟨1⟩) 64)
      = .error (.DestinationPfx (.v6 ⟨1⟩) 64) := by
  refine ⟨rfl, rfl, rfl⟩

/-- The spec's wording for the address filter (C6): the filter address
occurs among the message's attributes as `Address`, `Local`,
`Multicast`, or `Anycast` (the latter two hold IPv6 addresses, so
occurrence there means the filter address is that IPv6 address). -/
def specOccursAsAddress (addr : IpAddr)
    (attrs : List AddressAttribute) : Prop :=
  ∃ x ∈ attrs,
    x = AddressAttribute.Address addr ∨ x = AddressAttribute.Local addr ∨
      ∃ a6, addr = .v6 a6 ∧
        (x = AddressAttribute.Multicast a6 ∨ x = AddressAttribute.Anycast a6)

theorem attrMatches_iff_occurs (addr : IpAddr) (x : AddressAttribute) :
    AddressFilterBuilder.attrMatches addr x = true ↔
      (x = AddressAttribute.Address addr ∨ x = AddressAttribute.Local addr ∨
        ∃ a6, addr = .v6 a6 ∧
          (x = AddressAttribute.Multicast a6
            ∨ x = AddressAttribute.Anycast a6)) := by
  cases x <;> simp [AddressFilterBuilder.attrMatches] <;> aesop

/-- C6: for the address dump's client-side post-filter: with a link
index filter every accepted message carries that header index; with a
prefix-length filter every accepted message carries that header prefix
length; with only an address filter a message is accepted exactly when
the address occurs among its attributes as `Address`, `Local`,
`Multicast`, or `Anycast`. -/
theorem addr_get_client_side_filters :
    (∀ (i : Nat) (ao : Option IpAddr) (po : Option Nat)
        (msg : AddressMessage),
      AddressFilterBuilder.build
          { index := some i, address := ao, prefix_len := po } msg = true →
        msg.header.index = i)
    ∧ (∀ (p : Nat) (io : Option Nat) (ao : Option IpAddr)
        (msg : AddressMessage),
      AddressFilterBuilder.build
          { index := io, address := ao, prefix_len := some p } msg = true →
        msg.header.prefix_len = p)
    ∧ (∀ (addr : IpAddr) (msg : AddressMessage),
      AddressFilterBuilder.build
          { index := none, address := some addr, prefix_len := none } msg
          = true
        ↔ specOccursAsAddress addr msg.attributes) := by
  refine ⟨?_, ?_, ?_⟩
  · intro i ao po msg h
    by_cases hix : msg.header.index = i
    · exact hix
    · simp [AddressFilterBuilder.build, hix] at h
  · intro p io ao msg h
    by_cases hpl : msg.header.prefix_len = p
    · exact hpl
    · cases io <;>
        simp [AddressFilterBuilder.build,
          AddressFilterBuilder.build.buildPrefixStep, hpl] at h
  · intro addr msg
    simp [AddressFilterBuilder.build,
      AddressFilterBuilder.build.buildPrefixStep,
      AddressFilterBuilder.build.buildAddressStep,
      specOccursAsAddress, List.any_eq_true, attrMatches_iff_occurs]

/-- C6 witness: a message with header index 3 and prefix length 24
passes the index-3 filter and the prefix-24 filter, and the theorem
recovers those header values from acceptance. -/
theorem addr_get_client_side_filters_witness :
    ({ header := { family := .Inet, prefix_len := 24, index := 3 },
       attributes := [AddressAttribute.Address (.v4 ⟨42⟩)] }
        : AddressMessage).header.index = 3
    ∧ ({ header := { family := .Inet, prefix_len := 24, index := 3 },
         attributes := [AddressAttribute.Address (.v4 ⟨42⟩)] }
          : AddressMessage).header.prefix_len = 24 :=
  ⟨addr_get_client_side_filters.1 3 none none
      { header := { family := .Inet, prefix_len := 24, index := 3 },
        attributes := [AddressAttribute.Address (.v4 ⟨42⟩)] } (by decide),
   addr_get_client_side_filters.2.1 24 (some 3) none
      { header := { family := .Inet, prefix_len := 24, index := 3 },
        attributes := [AddressAttribute.Address (.v4 ⟨42⟩)] } (by decide)⟩

/-- The nested link-info list `LinkMessageBuilder::build` accumulates
(src/link/builder.rs): the present entries of `info_kind`,
`info_data`, `port_kind`, `port_data`, pushed in that order. -/
def buildLinkInfos (b : LinkMessageBuilder) : List LinkInfo :=
  (match b.info_kind with
   | some info_kind => [LinkInfo.Kind info_kind] | none => []) ++
  (match b.info_data with
   | some info_data => [LinkInfo.Data info_data] | none => []) ++
  (match b.port_kind with
   | some port_kind => [LinkInfo.PortKind port_kind] | none => []) ++
  (match b.port_data with
   | some port_data => [LinkInfo.PortData port_data] | none => [])

/-- The Kind-before-Data-before-PortKind-before-PortData order the
kernel expects inside a `LinkInfo` attribute. -/
def linkInfoRank : LinkInfo → Nat
  | .Kind _ => 0
  | .Data _ => 1
  | .PortKind _ => 2
  | .PortData _ => 3

/-- C9: `LinkMessageBuilder::build` appends one `LinkInfo` attribute
exactly when at least one of `info_kind`, `info_data`, `port_kind`,
`port_data` was set; the nested list contains exactly the set entries,
strictly ordered Kind, Data, PortKind, PortData; and the accumulated
extra attributes keep their insertion order ahead of it. -/
theorem link_builder_linkinfo_assembly (b : LinkMessageBuilder) :
    ((b.info_kind = none ∧ b.info_data = none ∧ b.port_kind = none
        ∧ b.port_data = none) →
      (LinkMessageBuilder.build b).attributes = b.extra_attriutes)
    ∧ (¬(b.info_kind = none ∧ b.info_data = none ∧ b.port_kind = none
        ∧ b.port_data = none) →
      (LinkMessageBuilder.build b).attributes
        = b.extra_attriutes
            ++ [LinkAttribute.LinkInfoNla (buildLinkInfos b)])
    ∧ List.Pairwise (fun x y => linkInfoRank x < linkInfoRank y)
        (buildLinkInfos b)
    ∧ (∀ k, LinkInfo.Kind k ∈ buildLinkInfos b ↔ b.info_kind = some k)
    ∧ (∀ d, LinkInfo.Data d ∈ buildLinkInfos b ↔ b.info_data = some d)
    ∧ (∀ k, LinkInfo.PortKind k ∈ buildLinkInfos b
          ↔ b.port_kind = some k)
    ∧ (∀ d, LinkInfo.PortData d ∈ buildLinkInfos b
          ↔ b.port_data = some d) := by
  obtain ⟨hdr, ik, idt, pk, pd, ex⟩ := b
  by_cases hex : ex.isEmpty <;>
    cases ik <;> cases idt <;> cases pk <;> cases pd <;>
      simp_all [LinkMessageBuilder.build, buildLinkInfos, linkInfoRank,
        List.isEmpty_iff] <;>
    aesop

/-- C9 witness: with info kind `Veth`, port data set, no info data and
no port kind, and one extra attribute, build emits the extra attribute
first and then a `LinkInfo` attribute `[Kind Veth, PortData 5]`. -/
theorem link_builder_linkinfo_assembly_witness :
    (LinkMessageBuilder.build
        { info_kind := some .Veth, port_data := some ⟨5⟩,
          extra_attriutes := [LinkAttribute.IfName "veth-a"] }).attributes
      = [LinkAttribute.IfName "veth-a",
         LinkAttribute.LinkInfoNla
           [LinkInfo.Kind .Veth, LinkInfo.PortData ⟨5⟩]] :=
  ((link_builder_linkinfo_assembly
      { info_kind := some .Veth, port_data := some ⟨5⟩,
        extra_attriutes := [LinkAttribute.IfName "veth-a"] }).2.1
    (by simp)).trans (by decide)

theorem foldl_or_bit_testBit (l : List MulticastGroup) (acc i : Nat) :
    (l.foldl (fun a g => a ||| (1 <<< (g.toU32 - 1))) acc).testBit i
      = (acc.testBit i || l.any (fun g => g.toU32 - 1 == i)) := by
  induction l generalizing acc with
  | nil => simp
  | cons g l ih =>
    rw [List.foldl_cons, ih, List.any_cons]
    rw [Nat.testBit_or, Nat.one_shiftLeft, Nat.testBit_two_pow,
      Bool.or_assoc]
    rcases eq_or_ne (g.toU32 - 1) i with he | hne
    · simp [he]
    · have hb : (g.toU32 - 1 == i) = false := by
        simpa using hne
      rw [hb]
      simp [hne]

/-- C8: group constants match the kernel `RTNLGRP_*` numbering;
`need_via_add_membership` holds exactly on values above 31; in
`new_multicast_connection_with_socket` a bit of the bind-time mask is
set exactly when some requested group with value at most 31 maps to it
via `1 << (group - 1)`, and the groups joined via `add_membership` are
exactly the requested ones with value above 31. -/
theorem multicast_group_mask_and_membership :
    (MulticastGroup.toU32 .Link = 1 ∧ MulticastGroup.toU32 .Notify = 2
      ∧ MulticastGroup.toU32 .Neigh = 3 ∧ MulticastGroup.toU32 .Tc = 4
      ∧ MulticastGroup.toU32 .Ipv4Ifaddr = 5
      ∧ MulticastGroup.toU32 .Ipv4Mroute = 6
      ∧ MulticastGroup.toU32 .Ipv4Route = 7
      ∧ MulticastGroup.toU32 .Ipv4Rule = 8
      ∧ MulticastGroup.toU32 .Ipv6Ifaddr = 9
      ∧ MulticastGroup.toU32 .Ipv6Mroute = 10
      ∧ MulticastGroup.toU32 .Ipv6Route = 11
      ∧ MulticastGroup.toU32 .Ipv6Ifinfo = 12
      ∧ MulticastGroup.toU32 .MplsRoute = 27
      ∧ MulticastGroup.toU32 .Nsid = 28
      ∧ MulticastGroup.toU32 .MplsNetconf = 29
      ∧ MulticastGroup.toU32 .Ipv6Acaddr = 39)
    ∧ (∀ g : MulticastGroup,
        g.need_via_add_membership = decide (g.toU32 > 31))
    ∧ (∀ (gs : List MulticastGroup) (i : Nat),
        (bindGroupMask gs).testBit i
          = gs.any
              (fun g => !g.need_via_add_membership && (g.toU32 - 1 == i)))
    ∧ (∀ (gs : List MulticastGroup) (g : MulticastGroup),
        g ∈ addMembershipGroups gs ↔ g ∈ gs ∧ g.toU32 > 31) := by
  refine ⟨by decide, fun g => by cases g <;> rfl, ?_, ?_⟩
  · intro gs i
    rw [bindGroupMask, foldl_or_bit_testBit]
    simp [List.any_filter]
  · intro gs g
    simp [addMembershipGroups, List.mem_filter,
      MulticastGroup.need_via_add_membership]

theorem create_ns_error_is_namespace (sys : NetworkNamespace.ChildSyscalls)
    (name : String) (e : Error)
    (h : NetworkNamespace.child_process_create_ns sys name = .error e) :
    ∃ s, e = .NamespaceError s := by
  unfold NetworkNamespace.child_process_create_ns at h
  rcases h1 : sys.stat_netns_dir with e1 | u1 <;>
  rcases h2 : sys.mkdir_netns_dir with e2 | u2 <;>
  rcases h3 : sys.mount_rec_shared with e3 | u3 <;>
  rcases h4 : sys.mount_bind_rec with e4 | u4 <;>
  rcases h5 : sys.mount_rec_shared_again with e5 | u5 <;>
  rcases h6 : sys.open_ns_file with e6 | f6 <;>
  rcases h7 : sys.close_ns_fd with e7 | u7 <;>
    simp_all <;> exact ⟨_, h.symm⟩

theorem unshare_error_is_namespace (sys : NetworkNamespace.ChildSyscalls)
    (e : Error)
    (h : NetworkNamespace.unshare_processing sys = .error e) :
    ∃ s, e = .NamespaceError s := by
  unfold NetworkNamespace.unshare_processing at h
  rcases h1 : sys.unshare_newnet with e1 | u1 <;>
  rcases h2 : sys.open_self_ns with e2 | f2 <;>
  rcases h3 : sys.mount_bind_self with e3 | u3 <;>
  rcases h4 : sys.setns_newnet with e4 | u4 <;>
    simp_all <;> exact ⟨_, h.symm⟩

/-- C7: `NetworkNamespace::add`'s parent branch succeeds exactly when
`waitpid` reports the child exited with status 0; every other wait
status and a `waitpid` error surface as a `NamespaceError` (the parent
never sees the child's specific failure cause); and the child turns
any failure of its syscall sequence into `exit(1)` — every such
failure being a `NamespaceError` — success into `exit(0)`, and a panic
into `abort`. -/
theorem netns_parent_child_exit_semantics :
    (∀ w, NetworkNamespace.parent_process w = .ok ()
        ↔ ∃ pid, w = .ok (.Exited pid 0))
    ∧ (∀ w, NetworkNamespace.parent_process w ≠ .ok () →
        ∃ s, NetworkNamespace.parent_process w
          = .error (.NamespaceError s))
    ∧ (∀ sys name e,
        NetworkNamespace.child_body sys name = .error e →
          ∃ s, e = .NamespaceError s)
    ∧ (∀ sys name,
        NetworkNamespace.child_process
            (.completed (NetworkNamespace.child_body sys name))
          = (match NetworkNamespace.child_body sys name with
             | .ok _ => .exited 0
             | .error _ => .exited 1))
    ∧ NetworkNamespace.child_process .panicked = .aborted := by
  refine ⟨?_, ?_, ?_, ?_, rfl⟩
  · intro w
    match w with
    | .error e => simp [NetworkNamespace.parent_process]
    | .ok (.Exited pid res) =>
      by_cases h0 : res = 0
      · subst h0
        simp [NetworkNamespace.parent_process]
      · simp [NetworkNamespace.parent_process, h0]
    | .ok (.Signaled pid sig cd) =>
      simp [NetworkNamespace.parent_process]
    | .ok (.Stopped pid sig) => simp [NetworkNamespace.parent_process]
    | .ok (.PtraceEvent pid sig ev) =>
      simp [NetworkNamespace.parent_process]
    | .ok (.PtraceSyscall pid) => simp [NetworkNamespace.parent_process]
    | .ok (.Continued pid) => simp [NetworkNamespace.parent_process]
    | .ok .StillAlive => simp [NetworkNamespace.parent_process]
  · intro w hne
    match w with
    | .error e => exact ⟨_, rfl⟩
    | .ok (.Exited pid res) =>
      by_cases h0 : res = 0
      · subst h0
        exact absurd rfl hne
      · refine ⟨s!"Error child result: {res}", ?_⟩
        simp [NetworkNamespace.parent_process, h0]
    | .ok (.Signaled pid sig cd) => exact ⟨_, rfl⟩
    | .ok (.Stopped pid sig) => exact ⟨_, rfl⟩
    | .ok (.PtraceEvent pid sig ev) => exact ⟨_, rfl⟩
    | .ok (.PtraceSyscall pid) => exact ⟨_, rfl⟩
    | .ok (.Continued pid) => exact ⟨_, rfl⟩
    | .ok .StillAlive => exact ⟨_, rfl⟩
  · intro sys name e h
    unfold NetworkNamespace.child_body at h
    rcases hc : NetworkNamespace.child_process_create_ns sys name
      with ec | path
    · rw [hc] at h
      obtain ⟨s, hs⟩ := create_ns_error_is_namespace sys name ec hc
      exact ⟨s, by simp_all⟩
    · rw [hc] at h
      exact unshare_error_is_namespace sys e h
  · intro sys name
    cases hcb : NetworkNamespace.child_body sys name <;>
      simp [NetworkNamespace.child_process]

/-- C7 witness: a child exit status of 0 yields `Ok`; a child killed
by signal 9 yields a `NamespaceError`; a failing `unshare` syscall
makes the child body fail with a `NamespaceError`, so the child exits
with status 1. -/
theorem netns_parent_child_exit_semantics_witness :
    NetworkNamespace.parent_process (.ok (.Exited 7 0)) = .ok ()
    ∧ (∃ s, NetworkNamespace.parent_process (.ok (.Signaled 7 9 false))
        = .error (.NamespaceError s))
    ∧ (∃ s, Error.NamespaceError "unshare error: 1"
        = .NamespaceError s)
    ∧ NetworkNamespace.child_process
        (.completed (NetworkNamespace.child_body
          { stat_netns_dir := .ok (), mkdir_netns_dir := .ok (),
            mount_rec_shared := .ok (), mount_bind_rec := .ok (),
            mount_rec_shared_again := .ok (), open_ns_file := .ok 3,
            close_ns_fd := .ok (), unshare_newnet := .error 1,
            open_self_ns := .ok 4, mount_bind_self := .ok (),
            setns_newnet := .ok () } "test42"))
      = .exited 1 := by
  refine ⟨(netns_parent_child_exit_semantics.1
            (.ok (.Exited 7 0))).mpr ⟨7, rfl⟩,
          netns_parent_child_exit_semantics.2.1
            (.ok (.Signaled 7 9 false)) (by simp [NetworkNamespace.parent_process]),
          netns_parent_child_exit_semantics.2.2.1
            { stat_netns_dir := .ok (), mkdir_netns_dir := .ok (),
              mount_rec_shared := .ok (), mount_bind_rec := .ok (),
              mount_rec_shared_again := .ok (), open_ns_file := .ok 3,
              close_ns_fd := .ok (), unshare_newnet := .error 1,
              open_self_ns := .ok 4, mount_bind_self := .ok (),
              setns_newnet := .ok () } "test42"
            (.NamespaceError "unshare error: 1") rfl,
          ?_⟩
  exact (netns_parent_child_exit_semantics.2.2.2.1
    { stat_netns_dir := .ok (), mkdir_netns_dir := .ok (),
      mount_rec_shared := .ok (), mount_bind_rec := .ok (),
      mount_rec_shared_again := .ok (), open_ns_file := .ok 3,
      close_ns_fd := .ok (), unshare_newnet := .error 1,
      open_self_ns := .ok 4, mount_bind_self := .ok (),
      setns_newnet := .ok () } "test42").trans (by rfl)
